import Mathlib

/-!
Verification development for the CSV export engine of `running_page`
(`src/run_page/csv_exporter.py`).  The Python code is shallowly embedded:
Python floats are modelled as exact rationals (`ℚ`), Python ints as `ℤ`,
optional dictionary fields as `Option`, and every function is total.
-/

namespace CsvExporter

/-- Python `int(q)` on a rational: truncation toward zero. -/
def pytrunc (q : ℚ) : ℤ := if q < 0 then ⌈q⌉ else ⌊q⌋

/-- Python `a % b` for rationals (used only with positive `b`): `a - b * floor (a / b)`. -/
def pymod (a b : ℚ) : ℚ := a - b * ⌊a / b⌋

/-- Zero padding of Python's `{n:02d}` format for a natural number. -/
def pad2 (n : ℕ) : String := if n < 10 then "0" ++ toString n else toString n

/-- `CSVExporter.format_time` (csv_exporter.py lines 29-46).
`None` or a value `≤ 0` (Python: `not seconds or seconds <= 0`) renders the
sentinel; otherwise `minutes = int(s // 60)`, `secs = int(s % 60)`,
`millis = int((s % 1) * 10)`, output `f"{minutes}:{secs:02d}.{millis}"`. -/
def format_time (seconds : Option ℚ) : String :=
  match seconds with
  | none => "0:00.0"
  | some s =>
    if s ≤ 0 then "0:00.0"
    else
      let minutes : ℤ := ⌊s / 60⌋
      let secs : ℤ := pytrunc (pymod s 60)
      let millis : ℤ := pytrunc (pymod s 1 * 10)
      toString minutes ++ ":" ++ pad2 secs.toNat ++ "." ++ toString millis.toNat

/-- `CSVExporter.format_pace` (lines 48-66): `0:00` for non-positive speed,
otherwise minutes/seconds of `1000 / metersPerSecond` seconds per km. -/
def format_pace (meters_per_second : ℚ) : String :=
  if meters_per_second ≤ 0 then "0:00"
  else
    let seconds_per_km : ℚ := 1000 / meters_per_second
    let minutes : ℤ := ⌊seconds_per_km / 60⌋
    let seconds : ℤ := pytrunc (pymod seconds_per_km 60)
    toString minutes ++ ":" ++ pad2 seconds.toNat

/-- `CSVExporter.calculate_pace_from_distance_time` (lines 68-83). -/
def calculate_pace_from_distance_time (distance_meters time_seconds : ℚ) : String :=
  if distance_meters ≤ 0 ∨ time_seconds ≤ 0 then "0:00"
  else format_pace (distance_meters / time_seconds)

/-- A lap record: the Python dict produced by the two ingestion paths.
Absent dictionary keys are `none`.  Pass-through numeric fields are modelled
as integers. -/
structure Lap where
  distance_meters : Option ℚ := none
  time_seconds : Option ℚ := none
  pace : Option String := none
  avg_heartrate : Option ℤ := none
  max_heartrate : Option ℤ := none
  elevation_gain : Option ℤ := none
  elevation_loss : Option ℤ := none
  calories : Option ℤ := none
  grade_adjusted_pace : Option String := none
  best_pace : Option String := none
  moving_pace : Option String := none
  moving_time : Option ℚ := none
  avg_power : Option ℤ := none
  avg_power_per_kg : Option ℤ := none
  max_power : Option ℤ := none
  max_power_per_kg : Option ℤ := none
  avg_cadence : Option ℤ := none
  max_cadence : Option ℤ := none
  avg_ground_contact_time : Option ℤ := none
  gct_balance : Option String := none
  avg_stride_length : Option ℤ := none
  avg_vertical_oscillation : Option ℤ := none
  avg_vertical_ratio : Option ℤ := none
  avg_temperature : Option ℤ := none
  pace_loss : Option ℤ := none
  pace_loss_percent : Option ℤ := none
  deriving Repr, DecidableEq

/-- The `summary_data` dict consumed by `generate_csv`. -/
structure Summary where
  total_time : Option ℚ := none
  total_distance : Option ℚ := none
  total_calories : Option ℤ := none
  avg_heartrate : Option ℤ := none
  max_heartrate : Option ℤ := none
  total_elevation_gain : Option ℤ := none
  total_elevation_loss : Option ℤ := none
  grade_adjusted_pace : Option String := none
  best_pace : Option String := none
  moving_pace : Option String := none
  moving_time : Option ℚ := none
  avg_power : Option ℤ := none
  avg_power_per_kg : Option ℤ := none
  max_power : Option ℤ := none
  max_power_per_kg : Option ℤ := none
  avg_cadence : Option ℤ := none
  max_cadence : Option ℤ := none
  avg_ground_contact_time : Option ℤ := none
  gct_balance : Option String := none
  avg_stride_length : Option ℤ := none
  avg_vertical_oscillation : Option ℤ := none
  avg_vertical_ratio : Option ℤ := none
  avg_temperature : Option ℤ := none
  deriving Repr, DecidableEq

/-- The heart-rate filter `[hr for hr in heartrate_list if hr and hr > 0]`
(line 561): `None` and `0` are falsy, then `hr > 0` is tested. -/
def validHR (heartrate_list : List (Option ℤ)) : List ℤ :=
  heartrate_list.filterMap fun h =>
    match h with
    | none => none
    | some v => if v ≠ 0 ∧ v > 0 then some v else none

/-- The consecutive-pair elevation loop shared by lines 305-310 and 570-575:
`diff = a[i] - a[i-1]`; positive diffs accumulate into the gain, otherwise
`abs(diff)` accumulates into the loss. -/
def elevLoop : ℚ → List ℚ → ℚ × ℚ → ℚ × ℚ
  | _, [], acc => acc
  | prev, a :: rest, (g, l) =>
    let diff := a - prev
    if diff > 0 then elevLoop a rest (g + diff, l) else elevLoop a rest (g, l + |diff|)

/-- Total elevation gain and loss of an altitude sample list. -/
def elevGainLoss : List ℚ → ℚ × ℚ
  | [] => (0, 0)
  | a :: rest => elevLoop a rest (0, 0)

/-- `CSVExporter._calculate_lap_metrics` (lines 529-579).  Returns the empty
dict when either required channel is empty; otherwise distance and time are
last-minus-first, heart-rate aggregates use only valid samples, and elevation
requires at least two altitude samples. -/
def calculate_lap_metrics (distance_list time_list : List ℚ)
    (heartrate_list : Option (List (Option ℤ))) (altitude_list : Option (List ℚ)) : Lap :=
  match distance_list, time_list with
  | [], _ => {}
  | _, [] => {}
  | d0 :: ds, t0 :: ts =>
    let lap_distance := (ds.getLast?.getD d0) - d0
    let lap_time := (ts.getLast?.getD t0) - t0
    let base : Lap := { distance_meters := some lap_distance, time_seconds := some lap_time }
    let withHR : Lap :=
      match heartrate_list with
      | some hrl =>
        if hrl ≠ [] then
          let valid := validHR hrl
          if valid ≠ [] then
            { base with
              avg_heartrate := some (pytrunc ((valid.sum : ℚ) / (valid.length : ℚ)))
              max_heartrate := valid.max? }
          else base
        else base
      | none => base
    match altitude_list with
    | some alts =>
      if alts.length > 1 then
        let gl := elevGainLoss alts
        { withHR with elevation_gain := some (pytrunc gl.1), elevation_loss := some (pytrunc gl.2) }
      else withHR
    | none => withHR

/-- The elevation fragment of `CSVExporter.parse_tcx_data` (lines 302-313):
executed whenever the extracted altitude list is non-empty (`if elevations:`),
including the single-sample case, where both fields become `0`. -/
def tcx_elevation (elevations : List ℚ) : Option (ℤ × ℤ) :=
  if elevations ≠ [] then
    let gl := elevGainLoss elevations
    some (pytrunc gl.1, pytrunc gl.2)
  else none

/-- Python slice `xs[a:b]`. -/
def pyslice (xs : List α) (a b : ℕ) : List α := (xs.drop a).take (b - a)

/-- `data[a:b] if data else None`: an absent or empty channel stays `None`. -/
def sliceOpt (o : Option (List α)) (a b : ℕ) : Option (List α) :=
  match o with
  | none => none
  | some l => if l.isEmpty then none else some (pyslice l a b)

/-- `data[a:] if data else None`: the tail slice used for the final lap. -/
def dropOpt (o : Option (List α)) (a : ℕ) : Option (List α) :=
  match o with
  | none => none
  | some l => if l.isEmpty then none else some (l.drop a)

/-- The scan loop of `CSVExporter.calculate_laps_from_streams` (lines 501-526):
iterate over `enumerate(distance_data)` (the first list argument steps through
the suffix of `dd` starting at index `i`); whenever
`distance - current_lap_distance >= lap_distance` close a lap over the slice
`[lap_start_index : i+1]` and restart at `i+1`; after the loop, if samples
remain, close one final lap over the remaining tail. -/
def segLoop (dd td : List ℚ) (hr : Option (List (Option ℤ))) (alt : Option (List ℚ))
    (lapDist : ℚ) : List ℚ → ℕ → ℚ → ℕ → List Lap
  | [], _i, _cur, start =>
    if start < dd.length then
      [calculate_lap_metrics (dd.drop start) (td.drop start) (dropOpt hr start) (dropOpt alt start)]
    else []
  | d :: rest, i, cur, start =>
    if d - cur ≥ lapDist then
      calculate_lap_metrics (pyslice dd start (i + 1)) (pyslice td start (i + 1))
          (sliceOpt hr start (i + 1)) (sliceOpt alt start (i + 1))
        :: segLoop dd td hr alt lapDist rest (i + 1) d (i + 1)
    else segLoop dd td hr alt lapDist rest (i + 1) cur start

/-- `CSVExporter.calculate_laps_from_streams` (lines 479-527).  The guard
`if not streams.get('distance') or not streams.get('time')` returns the empty
list when either required channel is absent; otherwise the scan starts with
`current_lap_distance = 0`, `lap_start_index = 0`. -/
def calculate_laps_from_streams (distance time : Option (List ℚ))
    (hr : Option (List (Option ℤ))) (alt : Option (List ℚ)) (lapDist : ℚ) : List Lap :=
  match distance, time with
  | some dd, some td => segLoop dd td hr alt lapDist dd 0 0 0
  | _, _ => []

/-- The index windows (first and last sample index, inclusive) of the laps the
stream scan emits; same control flow as `segLoop`, recording indices instead
of metrics.  `total` is the length of the distance channel. -/
def segWindows (lapDist : ℚ) (total : ℕ) : List ℚ → ℕ → ℚ → ℕ → List (ℕ × ℕ)
  | [], _i, _cur, start => if start < total then [(start, total - 1)] else []
  | d :: rest, i, cur, start =>
    if d - cur ≥ lapDist then (start, i) :: segWindows lapDist total rest (i + 1) d (i + 1)
    else segWindows lapDist total rest (i + 1) cur start

/-- The index windows of the laps produced for a distance channel `dd`. -/
def stream_windows (dd : List ℚ) (lapDist : ℚ) : List (ℕ × ℕ) :=
  segWindows lapDist dd.length dd 0 0 0

/-- The lap the Calculator produces for one index window of the sample series. -/
def lapOfWindow (dd td : List ℚ) (hr : Option (List (Option ℤ))) (alt : Option (List ℚ))
    (w : ℕ × ℕ) : Lap :=
  calculate_lap_metrics (pyslice dd w.1 (w.2 + 1)) (pyslice td w.1 (w.2 + 1))
    (sliceOpt hr w.1 (w.2 + 1)) (sliceOpt alt w.1 (w.2 + 1))

/-- Windows `ws` tile the index interval from `a` (inclusive) to `b`
(exclusive): each window starts where the previous ended plus one and is
non-degenerate, and the last ends at `b - 1`. -/
def chainFrom : ℕ → List (ℕ × ℕ) → ℕ → Prop
  | a, [], b => a = b
  | a, w :: ws, b => w.1 = a ∧ a ≤ w.2 ∧ chainFrom (w.2 + 1) ws b

/-- `str(d.get(key, '') or '')` for an integer-valued optional field: an
absent key and a zero value (falsy) both render as the empty string. -/
def strOr (v : Option ℤ) : String :=
  match v with
  | none => ""
  | some n => if n = 0 then "" else toString n

/-- `d.get(key, '') or ''` for a string-valued optional field. -/
def strOrS (v : Option String) : String := v.getD ""

/-- Python `f"{q:.2f}"` on a rational: two decimals, ties modelled as
round-half-up (the binary-float artifacts of CPython's tie behaviour are not
modelled; no claim depends on a tie). -/
def format2f (q : ℚ) : String :=
  let cents : ℤ := round (q * 100)
  if cents < 0 then "-" ++ toString ((-cents) / 100) ++ "." ++ pad2 (((-cents) % 100).toNat)
  else toString (cents / 100) ++ "." ++ pad2 ((cents % 100).toNat)

/-- The fixed header row of `generate_csv` (lines 100-109). -/
def headers : List String :=
  ["计圈", "时间", "累积时间", "距离公里", "平均配速分钟/千米",
   "平均坡度调整配速分钟/千米", "平均心率bpm", "最大心率bpm",
   "累计爬升米", "累计下降米", "平均功率瓦", "平均 W/kg",
   "最大功率瓦", "最大 W/kg", "平均步频每分钟步数", "平均触地时间毫秒",
   "平均 GCT 平衡%", "平均步长米", "平均垂直摆动cm", "平均垂直步幅比%",
   "热量消耗卡路里", "平均温度", "最佳配速分钟/千米", "最高步频每分钟步数",
   "移动时间", "平均移动配速分钟/千米", "平均步速损失厘米/秒", "平均步速损失百分比%"]

/-- The per-lap pace computed by `generate_csv` (lines 123-126). -/
def lapPace (lap : Lap) : String :=
  calculate_pace_from_distance_time (lap.distance_meters.getD 0) (lap.time_seconds.getD 0)

/-- One numbered lap row of `generate_csv` (lines 128-157); `cumTime` and
`cumDist` are the running cumulatives after adding this lap. -/
def lapRow (i : ℕ) (cumTime _cumDist : ℚ) (lap : Lap) : List String :=
  let lap_time := lap.time_seconds.getD 0
  let pace := lapPace lap
  [toString i,
   format_time (some lap_time),
   format_time (some cumTime),
   format2f (lap.distance_meters.getD 0 / 1000),
   pace,
   lap.grade_adjusted_pace.getD pace,
   strOr lap.avg_heartrate,
   strOr lap.max_heartrate,
   strOr lap.elevation_gain,
   strOr lap.elevation_loss,
   strOr lap.avg_power,
   strOr lap.avg_power_per_kg,
   strOr lap.max_power,
   strOr lap.max_power_per_kg,
   strOr lap.avg_cadence,
   strOr lap.avg_ground_contact_time,
   strOrS lap.gct_balance,
   strOr lap.avg_stride_length,
   strOr lap.avg_vertical_oscillation,
   strOr lap.avg_vertical_ratio,
   strOr lap.calories,
   strOr lap.avg_temperature,
   lap.best_pace.getD pace,
   strOr lap.max_cadence,
   format_time (some (lap.moving_time.getD lap_time)),
   lap.moving_pace.getD pace,
   strOr lap.pace_loss,
   strOr lap.pace_loss_percent]

/-- The summary average pace of `generate_csv` (lines 163-166): computed from
the summary totals (with the cumulative values as defaults), guarded to the
sentinel for non-positive totals. -/
def stats_avg_pace (summary : Summary) (cumTime cumDist : ℚ) : String :=
  let total_time := summary.total_time.getD cumTime
  let total_distance := summary.total_distance.getD cumDist
  if total_distance > 0 ∧ total_time > 0 then
    calculate_pace_from_distance_time (total_distance * 1000) total_time
  else "0:00"

/-- The trailing stats row of `generate_csv` (lines 160-198); totals default
to the final cumulative time/distance when the summary omits them. -/
def statsRow (summary : Summary) (cumTime cumDist : ℚ) : List String :=
  let total_time := summary.total_time.getD cumTime
  let total_distance := summary.total_distance.getD cumDist
  let avg_pace := stats_avg_pace summary cumTime cumDist
  ["统计",
   format_time (some total_time),
   format_time (some total_time),
   format2f total_distance,
   avg_pace,
   summary.grade_adjusted_pace.getD avg_pace,
   strOr summary.avg_heartrate,
   strOr summary.max_heartrate,
   strOr summary.total_elevation_gain,
   strOr summary.total_elevation_loss,
   strOr summary.avg_power,
   strOr summary.avg_power_per_kg,
   strOr summary.max_power,
   strOr summary.max_power_per_kg,
   strOr summary.avg_cadence,
   strOr summary.avg_ground_contact_time,
   strOrS summary.gct_balance,
   strOr summary.avg_stride_length,
   strOr summary.avg_vertical_oscillation,
   strOr summary.avg_vertical_ratio,
   strOr summary.total_calories,
   strOr summary.avg_temperature,
   summary.best_pace.getD avg_pace,
   strOr summary.max_cadence,
   format_time (some (summary.moving_time.getD total_time)),
   summary.moving_pace.getD avg_pace,
   "--",
   "--"]

/-- The row loop of `generate_csv` (lines 111-198): one row per lap with the
cumulatives updated before rendering, then the stats row. -/
def csvBody (summary : Summary) : List Lap → ℕ → ℚ → ℚ → List (List String)
  | [], _i, cumT, cumD => [statsRow summary cumT cumD]
  | lap :: rest, i, cumT, cumD =>
    let lap_time := lap.time_seconds.getD 0
    let lap_distance := lap.distance_meters.getD 0 / 1000
    lapRow i (cumT + lap_time) (cumD + lap_distance) lap
      :: csvBody summary rest (i + 1) (cumT + lap_time) (cumD + lap_distance)

/-- `CSVExporter.generate_csv` (lines 85-200), as the list of rows it writes:
header, numbered lap rows (1-indexed), stats row. -/
def generate_csv_rows (laps_data : List Lap) (summary_data : Summary) : List (List String) :=
  headers :: csvBody summary_data laps_data 1 0 0

/-- One parsed `Lap` element of a TCX document, as read by `parse_tcx_data`:
the optional scalar children and the altitude values of its trackpoints. -/
structure TCXLap where
  distance : Option ℚ := none
  total_time : Option ℚ := none
  calories : Option ℤ := none
  avg_hr : Option ℤ := none
  max_hr : Option ℤ := none
  altitudes : List ℚ := []
  deriving Repr, DecidableEq

/-- The per-record body of `CSVExporter.parse_tcx_data` (lines 247-316):
distance/time default to `0.0`, calories and heart rates are copied when
present, pace is derived when both distance and time are positive, and
elevation comes from the trackpoint altitudes via `tcx_elevation`. -/
def parse_tcx_lap (rec : TCXLap) : Lap :=
  let dist := rec.distance.getD 0
  let time := rec.total_time.getD 0
  let base : Lap :=
    { distance_meters := some dist
      time_seconds := some time
      calories := rec.calories
      avg_heartrate := rec.avg_hr
      max_heartrate := rec.max_hr
      pace :=
        if dist > 0 ∧ time > 0 then some (calculate_pace_from_distance_time dist time)
        else none }
  match tcx_elevation rec.altitudes with
  | some gl => { base with elevation_gain := some gl.1, elevation_loss := some gl.2 }
  | none => base

/-- `CSVExporter.parse_tcx_data` (lines 221-329) over the already-parsed lap
records: one `Lap` per record plus the aggregated summary (lines 319-327). -/
def parse_tcx_data (records : List TCXLap) : List Lap × Summary :=
  let laps_data := records.map parse_tcx_lap
  let all_heartrates := records.filterMap TCXLap.avg_hr
  (laps_data,
   { total_time := some ((records.map fun r => r.total_time.getD 0).sum)
     total_distance := some ((records.map fun r => r.distance.getD 0).sum / 1000)
     total_calories := some ((records.filterMap TCXLap.calories).sum)
     avg_heartrate :=
       if all_heartrates ≠ [] then
         some (pytrunc ((all_heartrates.sum : ℚ) / (all_heartrates.length : ℚ)))
       else none
     max_heartrate := all_heartrates.max?
     total_elevation_gain := some ((laps_data.map fun l => l.elevation_gain.getD 0).sum)
     total_elevation_loss := some ((laps_data.map fun l => l.elevation_loss.getD 0).sum) })

/-- Sum of the laps' `time_seconds` values as `generate_csv` accumulates them. -/
def sumT (laps : List Lap) : ℚ := (laps.map fun l => l.time_seconds.getD 0).sum

/-- Sum of the laps' distances converted to kilometres. -/
def sumD (laps : List Lap) : ℚ := (laps.map fun l => l.distance_meters.getD 0 / 1000).sum

/-- Spec-side elevation gain: the sum of the positive consecutive deltas. -/
def specGain (alts : List ℚ) : ℚ := ((alts.zip alts.tail).map fun p => max (p.2 - p.1) 0).sum

/-- Spec-side elevation loss: the sum of the absolute negative consecutive deltas. -/
def specLoss (alts : List ℚ) : ℚ := ((alts.zip alts.tail).map fun p => max (p.1 - p.2) 0).sum


/-! ### Arithmetic lemmas about the Python numeric helpers -/

lemma pytrunc_eq_floor (q : ℚ) (hq : 0 ≤ q) : pytrunc q = ⌊q⌋ := by
  unfold pytrunc
  rw [if_neg (not_lt.mpr hq)]

lemma int_floor_div_natCast (a : ℚ) (n : ℕ) (hn : 0 < n) : ⌊a / (n : ℚ)⌋ = ⌊a⌋ / (n : ℤ) := by
  have hn' : (0 : ℚ) < n := by exact_mod_cast hn
  apply le_antisymm
  · rw [Int.le_ediv_iff_mul_le (by exact_mod_cast hn)]
    rw [Int.le_floor]
    push_cast
    calc (⌊a / (n : ℚ)⌋ : ℚ) * n ≤ a / n * n :=
          mul_le_mul_of_nonneg_right (Int.floor_le _) (le_of_lt hn')
      _ = a := div_mul_cancel₀ a (ne_of_gt hn')
  · rw [Int.le_floor]
    rw [le_div_iff₀ hn']
    calc ((⌊a⌋ / (n : ℤ) : ℤ) : ℚ) * n = ((⌊a⌋ / (n : ℤ) * (n : ℤ) : ℤ) : ℚ) := by push_cast; ring
      _ ≤ (⌊a⌋ : ℚ) := by
          exact_mod_cast Int.ediv_mul_le ⌊a⌋ (by exact_mod_cast hn.ne')
      _ ≤ a := Int.floor_le a

lemma floor_div_60 (s : ℚ) : ⌊s / 60⌋ = ⌊s⌋ / 60 := by
  have h := int_floor_div_natCast s 60 (by norm_num)
  norm_num at h
  exact h

lemma pymod_nonneg (a b : ℚ) (hb : 0 < b) : 0 ≤ pymod a b := by
  have h := Int.sub_floor_div_mul_nonneg a hb
  unfold pymod
  linarith [h]

lemma floor_pymod_60 (s : ℚ) : ⌊pymod s 60⌋ = ⌊s⌋ % 60 := by
  unfold pymod
  have h : s - 60 * ⌊s / 60⌋ = s - ((60 * ⌊s / 60⌋ : ℤ) : ℚ) := by push_cast; ring
  rw [h, Int.floor_sub_int, floor_div_60, Int.emod_def]

lemma pymod_one (s : ℚ) : pymod s 1 = s - ⌊s⌋ := by
  unfold pymod
  rw [div_one, one_mul]

lemma pytrunc_decitenths (s : ℚ) : pytrunc (pymod s 1 * 10) = ⌊10 * s⌋ - 10 * ⌊s⌋ := by
  rw [pymod_one]
  have h0 : (0 : ℚ) ≤ (s - ⌊s⌋) * 10 :=
    mul_nonneg (sub_nonneg.mpr (Int.floor_le s)) (by norm_num)
  rw [pytrunc_eq_floor _ h0]
  have h : (s - ⌊s⌋) * 10 = 10 * s - ((10 * ⌊s⌋ : ℤ) : ℚ) := by push_cast; ring
  rw [h, Int.floor_sub_int]

/-! ### Claim C6: `format_time` -/

/-- C6.  `format_time` returns `"0:00.0"` for every absent or non-positive
input; for every positive input it returns `"{minutes}:{secs:02}.{decitenths}"`
with `minutes = floor(s/60)`, `secs = floor(s mod 60)` zero-padded, and
`decitenths = floor((s mod 1) * 10)` truncated, not rounded: both `269.6` and
`269.64` format as `"4:29.6"`. -/
theorem c6_format_time :
    format_time none = "0:00.0" ∧
    (∀ s : ℚ, s ≤ 0 → format_time (some s) = "0:00.0") ∧
    (∀ s : ℚ, 0 < s →
      format_time (some s) =
        toString (⌊s⌋ / 60) ++ ":" ++ pad2 ((⌊s⌋ % 60).toNat) ++ "."
          ++ toString ((⌊10 * s⌋ - 10 * ⌊s⌋).toNat)) ∧
    format_time (some (1348 / 5)) = "4:29.6" ∧
    format_time (some (6741 / 25)) = "4:29.6" := by
  refine ⟨rfl, ?_, ?_, ?_, ?_⟩
  · intro s hs
    simp [format_time, if_pos hs]
  · intro s hs
    simp only [format_time, if_neg (not_le.mpr hs)]
    rw [floor_div_60,
      pytrunc_eq_floor _ (pymod_nonneg s 60 (by norm_num)), floor_pymod_60,
      pytrunc_decitenths]
  · norm_num [format_time, pytrunc, pymod, pad2]; rfl
  · norm_num [format_time, pytrunc, pymod, pad2]; rfl

/-- Witness for C6 at `s = -1` and `s = 269.6`. -/
theorem c6_format_time_witness :
    format_time (some (-1)) = "0:00.0" ∧
    format_time (some (1348 / 5)) =
      toString ((⌊(1348 / 5 : ℚ)⌋ : ℤ) / 60) ++ ":" ++ pad2 ((⌊(1348 / 5 : ℚ)⌋ % 60).toNat) ++ "."
        ++ toString ((⌊10 * (1348 / 5 : ℚ)⌋ - 10 * ⌊(1348 / 5 : ℚ)⌋).toNat) :=
  ⟨c6_format_time.2.1 (-1) (by norm_num),
   c6_format_time.2.2.1 (1348 / 5) (by norm_num)⟩

/-! ### Characterization of the Lap Metrics Calculator -/

/-- Closed form of `calculate_lap_metrics` on non-empty required channels. -/
lemma calc_metrics_spec (d0 t0 : ℚ) (ds ts : List ℚ) (hrl : Option (List (Option ℤ)))
    (alt : Option (List ℚ)) :
    calculate_lap_metrics (d0 :: ds) (t0 :: ts) hrl alt =
      { distance_meters := some ((ds.getLast?.getD d0) - d0)
        time_seconds := some ((ts.getLast?.getD t0) - t0)
        avg_heartrate :=
          match hrl with
          | some l =>
            if validHR l ≠ [] then
              some (pytrunc (((validHR l).sum : ℚ) / ((validHR l).length : ℚ)))
            else none
          | none => none
        max_heartrate :=
          match hrl with
          | some l => if validHR l ≠ [] then (validHR l).max? else none
          | none => none
        elevation_gain :=
          match alt with
          | some alts =>
            if alts.length > 1 then some (pytrunc (elevGainLoss alts).1) else none
          | none => none
        elevation_loss :=
          match alt with
          | some alts =>
            if alts.length > 1 then some (pytrunc (elevGainLoss alts).2) else none
          | none => none } := by
  have hval : ∀ l : List (Option ℤ), validHR l ≠ [] → l ≠ [] := by
    intro l h hc
    subst hc
    exact h rfl
  cases hrl with
  | none =>
    cases alt with
    | none => rfl
    | some alts =>
      simp only [calculate_lap_metrics]
      split_ifs <;> rfl
  | some l =>
    cases alt with
    | none =>
      simp only [calculate_lap_metrics]
      by_cases h1 : l = []
      · subst h1
        simp only [ne_eq, not_true_eq_false, if_false, reduceIte]
        have : validHR ([] : List (Option ℤ)) = [] := rfl
        simp [this]
      · by_cases h2 : validHR l = [] <;> simp [h1, h2]
    | some alts =>
      simp only [calculate_lap_metrics]
      by_cases h1 : l = []
      · subst h1
        have : validHR ([] : List (Option ℤ)) = [] := rfl
        by_cases h3 : alts.length > 1 <;> simp [this, h3]
      · by_cases h2 : validHR l = [] <;> by_cases h3 : alts.length > 1 <;>
          simp [h1, h2, h3]

/-- "Discard absent, then discard non-positive": `validHR` is the filter the
spec describes. -/
lemma validHR_eq_filter (l : List (Option ℤ)) :
    validHR l = (l.filterMap id).filter (fun v => decide (0 < v)) := by
  induction l with
  | nil => rfl
  | cons a t ih =>
    cases a with
    | none => simpa [validHR, List.filterMap_cons] using ih
    | some w =>
      by_cases hw : 0 < w
      · have hcond : w ≠ 0 ∧ w > 0 := ⟨ne_of_gt hw, hw⟩
        simp only [validHR, List.filterMap_cons, id, if_pos hcond, List.filter_cons]
        rw [if_pos (by simpa using hw)]
        simpa [validHR] using ih
      · have hcond : ¬(w ≠ 0 ∧ w > 0) := by
          intro hc
          exact hw hc.2
        simp only [validHR, List.filterMap_cons, id, if_neg hcond, List.filter_cons]
        rw [if_neg (by simpa using hw)]
        simpa [validHR] using ih

lemma validHR_mem_pos (l : List (Option ℤ)) : ∀ v ∈ validHR l, 0 < v := by
  rw [validHR_eq_filter]
  intro v hv
  rw [List.mem_filter] at hv
  simpa using hv.2

/-! ### Claim C2: heart-rate aggregation -/

/-- C2 counterexample.  For heart-rate samples `[100, 103]` the code stores
`int(203 / 2) = 101` (truncated mean), while `round(mean) = round(101.5) = 102`:
the claim's `avg_heartrate = round(mean)` fails. -/
theorem c2_heartrate_counterexample :
    (calculate_lap_metrics [0, 10] [0, 10] (some [some 100, some 103]) none).avg_heartrate
        = some 101 ∧
    round (((100 : ℚ) + 103) / 2) = 102 ∧ (101 : ℤ) ≠ 102 := by
  refine ⟨?_, by norm_num [round_eq], by decide⟩
  simp +decide only [calculate_lap_metrics, validHR, List.filterMap]
  norm_num [pytrunc]

/-- C2 (amended).  Samples that are absent or `≤ 0` are discarded; if any
remain, `avg_heartrate` is the mean truncated toward zero (`int(mean)`, i.e.
its floor, not `round(mean)`) and `max_heartrate` is the maximum; if none
remain both fields are omitted. -/
theorem c2_heartrate_amended (distance_list time_list : List ℚ)
    (heartrate_list : List (Option ℤ)) (altitude_list : Option (List ℚ))
    (hd : distance_list ≠ []) (ht : time_list ≠ []) :
    validHR heartrate_list = (heartrate_list.filterMap id).filter (fun v => decide (0 < v)) ∧
    (validHR heartrate_list ≠ [] →
      (calculate_lap_metrics distance_list time_list (some heartrate_list) altitude_list).avg_heartrate
          = some ⌊((validHR heartrate_list).sum : ℚ) / ((validHR heartrate_list).length : ℚ)⌋ ∧
      (calculate_lap_metrics distance_list time_list (some heartrate_list) altitude_list).max_heartrate
          = (validHR heartrate_list).max?) ∧
    (validHR heartrate_list = [] →
      (calculate_lap_metrics distance_list time_list (some heartrate_list) altitude_list).avg_heartrate
          = none ∧
      (calculate_lap_metrics distance_list time_list (some heartrate_list) altitude_list).max_heartrate
          = none) := by
  obtain ⟨d0, ds, rfl⟩ := List.exists_cons_of_ne_nil hd
  obtain ⟨t0, ts, rfl⟩ := List.exists_cons_of_ne_nil ht
  rw [calc_metrics_spec]
  refine ⟨validHR_eq_filter heartrate_list, ?_, ?_⟩
  · intro hne
    simp only [hne, ne_eq, not_false_eq_true, if_true, and_true]
    simp [hne]
    rw [pytrunc_eq_floor]
    apply div_nonneg _ (by positivity)
    apply List.sum_nonneg
    intro x hx
    simp only [List.mem_map] at hx
    obtain ⟨w, hw, rfl⟩ := hx
    exact_mod_cast le_of_lt (validHR_mem_pos _ w hw)
  · intro heq
    simp [heq]

/-- Witness for C2 (amended) on heart-rate channel `[100, None, 0, -5, 103]`. -/
theorem c2_heartrate_witness :
    (calculate_lap_metrics [0, 10] [0, 10] (some [some 100, none, some 0, some (-5), some 103])
        none).avg_heartrate
      = some ⌊((validHR [some 100, none, some 0, some (-5), some 103]).sum : ℚ)
          / ((validHR [some 100, none, some 0, some (-5), some 103]).length : ℚ)⌋ ∧
    (calculate_lap_metrics [0, 10] [0, 10] (some [some 100, none, some 0, some (-5), some 103])
        none).max_heartrate
      = (validHR [some 100, none, some 0, some (-5), some 103]).max? :=
  (c2_heartrate_amended [0, 10] [0, 10] [some 100, none, some 0, some (-5), some 103] none
    (List.cons_ne_nil _ _) (List.cons_ne_nil _ _)).2.1 (by decide)

/-! ### Claim C3: elevation gain and loss -/

lemma specGain_nil : specGain [] = 0 := rfl

lemma specLoss_nil : specLoss [] = 0 := rfl

lemma specGain_singleton (x : ℚ) : specGain [x] = 0 := rfl

lemma specLoss_singleton (x : ℚ) : specLoss [x] = 0 := rfl

lemma specGain_cons (x y : ℚ) (t : List ℚ) :
    specGain (x :: y :: t) = max (y - x) 0 + specGain (y :: t) := by
  simp [specGain]

lemma specLoss_cons (x y : ℚ) (t : List ℚ) :
    specLoss (x :: y :: t) = max (x - y) 0 + specLoss (y :: t) := by
  simp [specLoss]

lemma elevLoop_eq (rest : List ℚ) : ∀ (prev g l : ℚ),
    elevLoop prev rest (g, l) = (g + specGain (prev :: rest), l + specLoss (prev :: rest)) := by
  induction rest with
  | nil =>
    intro prev g l
    simp [elevLoop, specGain_singleton, specLoss_singleton]
  | cons a t ih =>
    intro prev g l
    simp only [elevLoop]
    split_ifs with h
    · rw [ih, specGain_cons, specLoss_cons,
        max_eq_left (le_of_lt h), max_eq_right (by linarith)]
      simp only [Prod.mk.injEq]
      constructor <;> ring
    · rw [ih, specGain_cons, specLoss_cons,
        max_eq_right (by linarith), max_eq_left (by linarith),
        abs_of_nonpos (by linarith)]
      simp only [Prod.mk.injEq]
      constructor <;> ring

lemma elevGainLoss_eq (alts : List ℚ) : elevGainLoss alts = (specGain alts, specLoss alts) := by
  cases alts with
  | nil => simp [elevGainLoss, specGain_nil, specLoss_nil]
  | cons a rest =>
    show elevLoop a rest (0, 0) = _
    rw [elevLoop_eq rest a 0 0]
    simp

lemma specGain_nonneg (alts : List ℚ) : 0 ≤ specGain alts := by
  apply List.sum_nonneg
  intro x hx
  simp only [List.mem_map] at hx
  obtain ⟨p, _, rfl⟩ := hx
  exact le_max_right _ _

lemma specLoss_nonneg (alts : List ℚ) : 0 ≤ specLoss alts := by
  apply List.sum_nonneg
  intro x hx
  simp only [List.mem_map] at hx
  obtain ⟨p, _, rfl⟩ := hx
  exact le_max_right _ _

/-- C3 counterexample.  In the structured-lap (TCX) path a lap with exactly one
altitude sample does not omit the elevation fields: `if elevations:` is true
for a singleton, the delta loop runs zero times, and both fields are set to
`0`.  The claim says both fields are omitted in either path when fewer than 2
samples are present. -/
theorem c3_elevation_counterexample :
    (parse_tcx_lap { altitudes := [100] }).elevation_gain = some 0 ∧
    (parse_tcx_lap { altitudes := [100] }).elevation_loss = some 0 := by
  constructor <;> rfl

/-- C3 (amended).  Gain is the truncated sum of positive consecutive altitude
deltas and loss the truncated sum of absolute negative deltas (for
`[100,105,102,110]`: gain 13, loss 3).  In the stream path
(`_calculate_lap_metrics`) the fields are computed only with ≥ 2 altitude
samples and omitted otherwise; in the structured-lap path (`parse_tcx_data`)
they are computed (as zeros) already for a single altitude sample and omitted
only when there are no altitude samples at all. -/
theorem c3_elevation_amended :
    (∀ (distance_list time_list : List ℚ) (heartrate_list : Option (List (Option ℤ)))
        (altitude_list : List ℚ), distance_list ≠ [] → time_list ≠ [] →
      (2 ≤ altitude_list.length →
        (calculate_lap_metrics distance_list time_list heartrate_list
            (some altitude_list)).elevation_gain = some ⌊specGain altitude_list⌋ ∧
        (calculate_lap_metrics distance_list time_list heartrate_list
            (some altitude_list)).elevation_loss = some ⌊specLoss altitude_list⌋) ∧
      (altitude_list.length < 2 →
        (calculate_lap_metrics distance_list time_list heartrate_list
            (some altitude_list)).elevation_gain = none ∧
        (calculate_lap_metrics distance_list time_list heartrate_list
            (some altitude_list)).elevation_loss = none)) ∧
    (∀ elevations : List ℚ, elevations ≠ [] →
      tcx_elevation elevations = some (⌊specGain elevations⌋, ⌊specLoss elevations⌋)) ∧
    tcx_elevation [] = none ∧
    specGain [100, 105, 102, 110] = 13 ∧ specLoss [100, 105, 102, 110] = 3 := by
  refine ⟨?_, ?_, rfl, ?_, ?_⟩
  · intro dl tl hrl alts hdl htl
    obtain ⟨d0, ds, rfl⟩ := List.exists_cons_of_ne_nil hdl
    obtain ⟨t0, ts, rfl⟩ := List.exists_cons_of_ne_nil htl
    rw [calc_metrics_spec]
    constructor
    · intro hlen
      have h1 : alts.length > 1 := hlen
      dsimp only
      rw [elevGainLoss_eq]
      simp [h1, pytrunc_eq_floor _ (specGain_nonneg alts),
        pytrunc_eq_floor _ (specLoss_nonneg alts)]
    · intro hlen
      have h1 : ¬ alts.length > 1 := by omega
      dsimp only
      simp [h1]
  · intro alts hne
    rw [tcx_elevation, if_pos hne, elevGainLoss_eq]
    dsimp only
    rw [pytrunc_eq_floor _ (specGain_nonneg alts), pytrunc_eq_floor _ (specLoss_nonneg alts)]
  · norm_num [specGain]
  · norm_num [specLoss]

/-- Witness for C3 (amended) on altitude samples `[100, 105, 102, 110]`. -/
theorem c3_elevation_witness :
    (calculate_lap_metrics [0, 10] [0, 10] none (some [100, 105, 102, 110])).elevation_gain
        = some ⌊specGain [100, 105, 102, 110]⌋ ∧
    (calculate_lap_metrics [0, 10] [0, 10] none (some [100, 105, 102, 110])).elevation_loss
        = some ⌊specLoss [100, 105, 102, 110]⌋ :=
  ((c3_elevation_amended.1 [0, 10] [0, 10] none [100, 105, 102, 110]
    (List.cons_ne_nil _ _) (List.cons_ne_nil _ _)).1 (by norm_num))

/-! ### Claims C1 and C8: the Stream Segmenter on concrete and degenerate input -/

/-- C1 counterexample.  With threshold 1000 and cumulative distances
`[0,300,700,1050,1800,2000]` the code does produce two laps, the first closing
at index 3 with `distance_meters = 1050`; but the final partial lap's
`distance_meters` is `2000 - 1800 = 200` (last minus first inside its own
window, which starts at index 4), not the claimed 950. -/
theorem c1_stream_segmentation_counterexample :
    (calculate_laps_from_streams (some [0, 300, 700, 1050, 1800, 2000])
        (some [0, 60, 120, 180, 240, 300]) none none 1000).map Lap.distance_meters
      = [some 1050, some 200] ∧
    (calculate_laps_from_streams (some [0, 300, 700, 1050, 1800, 2000])
        (some [0, 60, 120, 180, 240, 300]) none none 1000).map Lap.distance_meters
      ≠ [some 1050, some 950] := by
  have h : (calculate_laps_from_streams (some [0, 300, 700, 1050, 1800, 2000])
      (some [0, 60, 120, 180, 240, 300]) none none 1000).map Lap.distance_meters
      = [some 1050, some 200] := by
    norm_num [calculate_laps_from_streams, segLoop, calculate_lap_metrics, pyslice,
      sliceOpt, dropOpt]
  refine ⟨h, ?_⟩
  rw [h]
  norm_num

/-- C1 (amended).  Exactly two laps are produced: the first closes at index 3
covering indices 0-3 with `distance_meters = 1050`; the final partial lap is
always emitted and covers indices 4-5, but its `distance_meters` is
`200 = distance[5] - distance[4]` — the 750 m between the close of lap 1
(index 3) and the start of lap 2 (index 4) belongs to no lap. -/
theorem c1_stream_segmentation_amended :
    stream_windows [0, 300, 700, 1050, 1800, 2000] 1000 = [(0, 3), (4, 5)] ∧
    (calculate_laps_from_streams (some [0, 300, 700, 1050, 1800, 2000])
        (some [0, 60, 120, 180, 240, 300]) none none 1000).map
        (fun l => (l.distance_meters, l.time_seconds))
      = [(some 1050, some 180), (some 200, some 60)] := by
  constructor
  · norm_num [stream_windows, segWindows]
  · norm_num [calculate_laps_from_streams, segLoop, calculate_lap_metrics, pyslice,
      sliceOpt, dropOpt]

/-- C8.  When the distance channel is absent (`streams.get('distance')` is
`None`) or present but empty, the Stream Segmenter returns the empty lap list;
being a total function of the embedded state, it raises nothing. -/
theorem c8_empty_distance_channel (time : Option (List ℚ)) (hr : Option (List (Option ℤ)))
    (alt : Option (List ℚ)) (lapDist : ℚ) :
    calculate_laps_from_streams none time hr alt lapDist = [] ∧
    calculate_laps_from_streams (some []) time hr alt lapDist = [] := by
  cases time <;> exact ⟨rfl, rfl⟩

/-! ### Claim C10: the stream windows partition the sample indices -/

lemma pyslice_to_end (xs : List α) (a : ℕ) : pyslice xs a xs.length = xs.drop a := by
  unfold pyslice
  apply List.take_of_length_le
  simp

lemma pyslice_ne_nil (xs : List α) (a b : ℕ) (ha : a < xs.length) (hab : a < b) :
    pyslice xs a b ≠ [] := by
  unfold pyslice
  rw [Ne, List.take_eq_nil_iff]
  push_neg
  refine ⟨by omega, ?_⟩
  rw [Ne, List.drop_eq_nil_iff]
  omega

lemma sliceOpt_to_end (o : Option (List β)) (a n : ℕ) (h : ∀ l, o = some l → l.length = n) :
    sliceOpt o a n = dropOpt o a := by
  cases o with
  | none => rfl
  | some l =>
    simp only [sliceOpt, dropOpt]
    by_cases he : l.isEmpty
    · rw [if_pos he, if_pos he]
    · rw [if_neg he, if_neg he, ← h l rfl, pyslice_to_end]

lemma segLoop_eq_map (dd td : List ℚ) (hr : Option (List (Option ℤ))) (alt : Option (List ℚ))
    (lapDist : ℚ) (htd : td.length = dd.length)
    (hhr : ∀ l, hr = some l → l.length = dd.length)
    (halt : ∀ l, alt = some l → l.length = dd.length) :
    ∀ (scanned : List ℚ) (i start : ℕ) (cur : ℚ),
      segLoop dd td hr alt lapDist scanned i cur start
        = (segWindows lapDist dd.length scanned i cur start).map (lapOfWindow dd td hr alt) := by
  intro scanned
  induction scanned with
  | nil =>
    intro i start cur
    simp only [segLoop, segWindows]
    by_cases h : start < dd.length
    · rw [if_pos h, if_pos h]
      have h1 : dd.length - 1 + 1 = dd.length := by omega
      simp only [List.map_cons, List.map_nil, lapOfWindow, h1]
      rw [pyslice_to_end dd start,
        show pyslice td start dd.length = td.drop start by rw [← htd, pyslice_to_end],
        sliceOpt_to_end hr start dd.length hhr, sliceOpt_to_end alt start dd.length halt]
    · rw [if_neg h, if_neg h]
      rfl
  | cons d rest ih =>
    intro i start cur
    simp only [segLoop, segWindows]
    by_cases h : d - cur ≥ lapDist
    · rw [if_pos h, if_pos h]
      simp only [List.map_cons]
      rw [ih]
      rfl
    · rw [if_neg h, if_neg h]
      exact ih (i + 1) start cur

lemma segWindows_chain (lapDist : ℚ) (total : ℕ) :
    ∀ (scanned : List ℚ) (i start : ℕ) (cur : ℚ),
      start ≤ i → i + scanned.length = total →
      chainFrom start (segWindows lapDist total scanned i cur start) total := by
  intro scanned
  induction scanned with
  | nil =>
    intro i start cur hsi hlen
    simp only [List.length_nil, Nat.add_zero] at hlen
    subst hlen
    simp only [segWindows]
    by_cases h : start < i
    · rw [if_pos h]
      refine ⟨rfl, by omega, ?_⟩
      show i - 1 + 1 = i
      omega
    · rw [if_neg h]
      show start = i
      omega
  | cons d rest ih =>
    intro i start cur hsi hlen
    simp only [List.length_cons] at hlen
    simp only [segWindows]
    by_cases h : d - cur ≥ lapDist
    · rw [if_pos h]
      exact ⟨rfl, hsi, ih (i + 1) (i + 1) d (le_refl _) (by omega)⟩
    · rw [if_neg h]
      exact ih (i + 1) start cur (by omega) (by omega)

lemma chainFrom_le : ∀ (ws : List (ℕ × ℕ)) (a b : ℕ), chainFrom a ws b → a ≤ b := by
  intro ws
  induction ws with
  | nil =>
    intro a b h
    exact le_of_eq h
  | cons w t ih =>
    intro a b h
    obtain ⟨_, h2, h3⟩ := h
    have := ih (w.2 + 1) b h3
    omega

lemma chainFrom_mem : ∀ (ws : List (ℕ × ℕ)) (a b : ℕ), chainFrom a ws b →
    ∀ w ∈ ws, a ≤ w.1 ∧ w.1 ≤ w.2 ∧ w.2 < b := by
  intro ws
  induction ws with
  | nil =>
    intro a b _ w hw
    simp at hw
  | cons v t ih =>
    intro a b h w hw
    obtain ⟨h1, h2, h3⟩ := h
    rcases List.mem_cons.mp hw with rfl | hw'
    · have hb := chainFrom_le t (w.2 + 1) b h3
      exact ⟨by omega, by omega, by omega⟩
    · have := ih (v.2 + 1) b h3 w hw'
      omega

lemma chainFrom_countP_zero : ∀ (ws : List (ℕ × ℕ)) (a b k : ℕ), chainFrom a ws b → k < a →
    ws.countP (fun w => decide (w.1 ≤ k ∧ k ≤ w.2)) = 0 := by
  intro ws a b k h hk
  rw [List.countP_eq_zero]
  intro w hw
  have := chainFrom_mem ws a b h w hw
  simp only [decide_eq_true_eq]
  omega

lemma chainFrom_countP_one : ∀ (ws : List (ℕ × ℕ)) (a b k : ℕ), chainFrom a ws b →
    a ≤ k → k < b → ws.countP (fun w => decide (w.1 ≤ k ∧ k ≤ w.2)) = 1 := by
  intro ws
  induction ws with
  | nil =>
    intro a b k h hak hkb
    have hb : a = b := h
    omega
  | cons w t ih =>
    intro a b k h hak hkb
    obtain ⟨h1, h2, h3⟩ := h
    by_cases hk : k ≤ w.2
    · have hz := chainFrom_countP_zero t (w.2 + 1) b k h3 (by omega)
      rw [List.countP_cons, hz, if_pos (by simp only [decide_eq_true_eq]; omega)]
    · have h1' := ih (w.2 + 1) b k h3 (by omega) hkb
      rw [List.countP_cons, h1', if_neg (by simp only [decide_eq_true_eq]; omega)]

lemma chainFrom_pairwise : ∀ (ws : List (ℕ × ℕ)) (a b : ℕ), chainFrom a ws b →
    ws.Pairwise fun w1 w2 => w1.2 < w2.1 := by
  intro ws
  induction ws with
  | nil =>
    intro a b _
    exact List.Pairwise.nil
  | cons w t ih =>
    intro a b h
    obtain ⟨h1, h2, h3⟩ := h
    refine List.Pairwise.cons ?_ (ih (w.2 + 1) b h3)
    intro w' hw'
    have := chainFrom_mem t (w.2 + 1) b h3 w' hw'
    omega

lemma calc_metrics_isSome (dl tl : List ℚ) (hrl : Option (List (Option ℤ)))
    (alt : Option (List ℚ)) (hd : dl ≠ []) (ht : tl ≠ []) :
    (calculate_lap_metrics dl tl hrl alt).distance_meters.isSome = true ∧
    (calculate_lap_metrics dl tl hrl alt).time_seconds.isSome = true := by
  obtain ⟨d0, ds, rfl⟩ := List.exists_cons_of_ne_nil hd
  obtain ⟨t0, ts, rfl⟩ := List.exists_cons_of_ne_nil ht
  rw [calc_metrics_spec]
  exact ⟨rfl, rfl⟩

/-- C10.  For a non-empty distance channel with all channels of equal length,
the Stream Segmenter's laps are exactly the Metrics Calculator applied to the
index windows `stream_windows`; those windows tile `[0, length)` (contiguous
via `chainFrom`, pairwise disjoint, and covering every sample index exactly
once), and every emitted lap carries both `distance_meters` and
`time_seconds`. -/
theorem c10_stream_window_partition (dd td : List ℚ) (hr : Option (List (Option ℤ)))
    (alt : Option (List ℚ)) (lapDist : ℚ) (_hdd : dd ≠ [])
    (htd : td.length = dd.length)
    (hhr : ∀ l, hr = some l → l.length = dd.length)
    (halt : ∀ l, alt = some l → l.length = dd.length) :
    calculate_laps_from_streams (some dd) (some td) hr alt lapDist
        = (stream_windows dd lapDist).map (lapOfWindow dd td hr alt) ∧
    chainFrom 0 (stream_windows dd lapDist) dd.length ∧
    ((stream_windows dd lapDist).Pairwise fun w1 w2 => w1.2 < w2.1) ∧
    (∀ k, k < dd.length →
      (stream_windows dd lapDist).countP (fun w => decide (w.1 ≤ k ∧ k ≤ w.2)) = 1) ∧
    (∀ lap ∈ calculate_laps_from_streams (some dd) (some td) hr alt lapDist,
      lap.distance_meters.isSome = true ∧ lap.time_seconds.isSome = true) := by
  have hchain : chainFrom 0 (stream_windows dd lapDist) dd.length :=
    segWindows_chain lapDist dd.length dd 0 0 0 (le_refl 0) (by simp)
  have hmap : calculate_laps_from_streams (some dd) (some td) hr alt lapDist
      = (stream_windows dd lapDist).map (lapOfWindow dd td hr alt) :=
    segLoop_eq_map dd td hr alt lapDist htd hhr halt dd 0 0 0
  refine ⟨hmap, hchain, chainFrom_pairwise _ _ _ hchain, ?_, ?_⟩
  · intro k hk
    exact chainFrom_countP_one _ _ _ k hchain (Nat.zero_le k) hk
  · intro lap hlap
    rw [hmap, List.mem_map] at hlap
    obtain ⟨w, hw, rfl⟩ := hlap
    obtain ⟨hb1, hb2, hb3⟩ := chainFrom_mem _ _ _ hchain w hw
    apply calc_metrics_isSome
    · apply pyslice_ne_nil <;> omega
    · apply pyslice_ne_nil <;> omega

/-- Witness for C10 on the series with distances `[0, 500, 1200]` and times
`[0, 10, 20]`. -/
theorem c10_stream_window_partition_witness :
    calculate_laps_from_streams (some [0, 500, 1200]) (some [0, 10, 20]) none none 1000
        = (stream_windows [0, 500, 1200] 1000).map
            (lapOfWindow [0, 500, 1200] [0, 10, 20] none none) ∧
    chainFrom 0 (stream_windows [0, 500, 1200] 1000) 3 ∧
    ((stream_windows [0, 500, 1200] 1000).Pairwise fun w1 w2 => w1.2 < w2.1) ∧
    (∀ k, k < 3 →
      (stream_windows [0, 500, 1200] 1000).countP (fun w => decide (w.1 ≤ k ∧ k ≤ w.2)) = 1) ∧
    (∀ lap ∈ calculate_laps_from_streams (some [0, 500, 1200]) (some [0, 10, 20]) none none 1000,
      lap.distance_meters.isSome = true ∧ lap.time_seconds.isSome = true) :=
  c10_stream_window_partition [0, 500, 1200] [0, 10, 20] none none 1000
    (List.cons_ne_nil _ _) rfl (fun _ h => nomatch h) (fun _ h => nomatch h)

/-! ### Row-indexing lemmas for the Report Generator -/

lemma sumT_nil : sumT [] = 0 := rfl

lemma sumD_nil : sumD [] = 0 := rfl

lemma sumT_cons (lap : Lap) (rest : List Lap) :
    sumT (lap :: rest) = lap.time_seconds.getD 0 + sumT rest := by
  simp [sumT]

lemma sumD_cons (lap : Lap) (rest : List Lap) :
    sumD (lap :: rest) = lap.distance_meters.getD 0 / 1000 + sumD rest := by
  simp [sumD]

lemma csvBody_length (summary : Summary) : ∀ (laps : List Lap) (i : ℕ) (t d : ℚ),
    (csvBody summary laps i t d).length = laps.length + 1 := by
  intro laps
  induction laps with
  | nil =>
    intro i t d
    rfl
  | cons lap rest ih =>
    intro i t d
    simp only [csvBody, List.length_cons, ih]

lemma csvBody_getElem_lap (summary : Summary) :
    ∀ (laps : List Lap) (k : ℕ) (lap : Lap) (i : ℕ) (t d : ℚ), laps[k]? = some lap →
      ∃ t' d', (csvBody summary laps i t d)[k]? = some (lapRow (i + k) t' d' lap) := by
  intro laps
  induction laps with
  | nil =>
    intro k lap i t d h
    simp at h
  | cons a rest ih =>
    intro k lap i t d h
    cases k with
    | zero =>
      rw [List.getElem?_cons_zero, Option.some_inj] at h
      subst h
      refine ⟨t + a.time_seconds.getD 0, d + a.distance_meters.getD 0 / 1000, ?_⟩
      simp only [csvBody]
      rw [List.getElem?_cons_zero]
      rfl
    | succ k' =>
      rw [List.getElem?_cons_succ] at h
      obtain ⟨t', d', h'⟩ :=
        ih k' lap (i + 1) (t + a.time_seconds.getD 0) (d + a.distance_meters.getD 0 / 1000) h
      refine ⟨t', d', ?_⟩
      simp only [csvBody]
      rw [List.getElem?_cons_succ, h', show i + 1 + k' = i + (k' + 1) by omega]

lemma csvBody_getElem_stats (summary : Summary) : ∀ (laps : List Lap) (i : ℕ) (t d : ℚ),
    (csvBody summary laps i t d)[laps.length]?
      = some (statsRow summary (t + sumT laps) (d + sumD laps)) := by
  intro laps
  induction laps with
  | nil =>
    intro i t d
    show some (statsRow summary t d) = _
    rw [sumT_nil, sumD_nil, add_zero, add_zero]
  | cons a rest ih =>
    intro i t d
    simp only [csvBody, List.length_cons]
    rw [List.getElem?_cons_succ, ih, sumT_cons, sumD_cons,
      add_assoc t (a.time_seconds.getD 0) (sumT rest),
      add_assoc d (a.distance_meters.getD 0 / 1000) (sumD rest)]

/-! ### Claim C4: cumulative totals vs. the printed summary row -/

/-- C4 counterexample.  The stats row prints `summary_data`'s own totals when
they are present: with one lap of 60 s and a summary carrying
`total_time = 120`, the printed total time is `"2:00.0"`, not the rendering
`"1:00.0"` of the cumulative lap sum (60 s).  The claimed equality between the
cumulative values and the printed totals fails. -/
theorem c4_cumulative_counterexample :
    (((generate_csv_rows [{ distance_meters := some 1000, time_seconds := some 60 }]
          { total_time := some 120, total_distance := some 5 })[2]?).bind fun r => r[1]?)
        = some "2:00.0" ∧
    format_time (some (sumT [{ distance_meters := some 1000, time_seconds := some 60 }]))
        = "1:00.0" ∧
    ("2:00.0" : String) ≠ "1:00.0" := by
  refine ⟨?_, ?_, by decide⟩
  · have h120 : format_time (some (120 : ℚ)) = "2:00.0" := by
      norm_num [format_time, pytrunc, pymod, pad2]
      rfl
    simp only [generate_csv_rows, csvBody, statsRow, List.getElem?_cons_succ,
      List.getElem?_cons_zero, Option.some_bind, Option.getD_some]
    rw [h120]
  · have h60 : sumT [({ distance_meters := some 1000, time_seconds := some 60 } : Lap)] = 60 := by
      simp [sumT]
    rw [h60]
    norm_num [format_time, pytrunc, pymod, pad2]
    rfl

/-- C4 (amended).  The running cumulatives the Report Generator holds after
the last lap are exactly the sums of the laps' `time_seconds` and of their
`distance_meters / 1000`; the trailing stats row is built from those sums, and
when the summary does not supply explicit `total_time` / `total_distance` the
printed totals are exactly the rendered cumulative sums (with explicit summary
totals, the printed values are the summary's, which may differ). -/
theorem c4_cumulative_amended (laps : List Lap) (summary : Summary) (_hne : laps ≠ [])
    (ht : summary.total_time = none) (hd : summary.total_distance = none) :
    (generate_csv_rows laps summary)[laps.length + 1]?
        = some (statsRow summary (sumT laps) (sumD laps)) ∧
    (statsRow summary (sumT laps) (sumD laps))[1]? = some (format_time (some (sumT laps))) ∧
    (statsRow summary (sumT laps) (sumD laps))[2]? = some (format_time (some (sumT laps))) ∧
    (statsRow summary (sumT laps) (sumD laps))[3]? = some (format2f (sumD laps)) := by
  refine ⟨?_, ?_, ?_, ?_⟩
  · simp only [generate_csv_rows]
    rw [List.getElem?_cons_succ, csvBody_getElem_stats, zero_add, zero_add]
  · simp only [statsRow, ht, Option.getD_none]
    rfl
  · simp only [statsRow, ht, Option.getD_none]
    rfl
  · simp only [statsRow, hd, Option.getD_none]
    rfl

/-- Witness for C4 (amended): one 60 s / 1000 m lap, summary without totals. -/
theorem c4_cumulative_witness :
    (generate_csv_rows [{ distance_meters := some 1000, time_seconds := some 60 }] {})[2]?
        = some (statsRow {} (sumT [{ distance_meters := some 1000, time_seconds := some 60 }])
            (sumD [{ distance_meters := some 1000, time_seconds := some 60 }])) ∧
    (statsRow {} (sumT [{ distance_meters := some 1000, time_seconds := some 60 }])
        (sumD [{ distance_meters := some 1000, time_seconds := some 60 }]))[1]?
      = some (format_time (some (sumT [{ distance_meters := some 1000, time_seconds := some 60 }]))) ∧
    (statsRow {} (sumT [{ distance_meters := some 1000, time_seconds := some 60 }])
        (sumD [{ distance_meters := some 1000, time_seconds := some 60 }]))[2]?
      = some (format_time (some (sumT [{ distance_meters := some 1000, time_seconds := some 60 }]))) ∧
    (statsRow {} (sumT [{ distance_meters := some 1000, time_seconds := some 60 }])
        (sumD [{ distance_meters := some 1000, time_seconds := some 60 }]))[3]?
      = some (format2f (sumD [{ distance_meters := some 1000, time_seconds := some 60 }])) :=
  c4_cumulative_amended [{ distance_meters := some 1000, time_seconds := some 60 }] {}
    (List.cons_ne_nil _ _) rfl rfl

/-! ### Claim C5: rendering of optional fields -/

/-- C5 counterexample.  A present calorie count of `0` is rendered as the
empty string, not as `"0"`: `str(lap.get('calories', '') or '')` maps the
falsy `0` to `''`.  The claim that a present value of 0 renders as its string
value fails. -/
theorem c5_zero_rendering_counterexample :
    (((generate_csv_rows
          [{ distance_meters := some 1000, time_seconds := some 60, calories := some 0 }]
          {})[1]?).bind fun r => r[20]?) = some "" ∧
    toString (0 : ℤ) = "0" ∧ (some "" : Option String) ≠ some (toString (0 : ℤ)) := by
  refine ⟨?_, rfl, by decide⟩
  simp only [generate_csv_rows, csvBody, lapRow, List.getElem?_cons_succ,
    List.getElem?_cons_zero, Option.some_bind]
  rfl

/-- C5 (amended).  Each optional field cell is `strOr` of the field:
`str(value)` when the field is present with a non-zero (truthy) value, and the
empty string both when the field is absent and when the present value is `0` —
a legitimate zero reading is indistinguishable from a missing one. -/
theorem c5_optional_rendering_amended (laps : List Lap) (summary : Summary) (k : ℕ) (lap : Lap)
    (h : laps[k]? = some lap) :
    ∃ row, (generate_csv_rows laps summary)[k + 1]? = some row ∧
      row[6]? = some (strOr lap.avg_heartrate) ∧
      row[7]? = some (strOr lap.max_heartrate) ∧
      row[8]? = some (strOr lap.elevation_gain) ∧
      row[9]? = some (strOr lap.elevation_loss) ∧
      row[20]? = some (strOr lap.calories) ∧
      row[21]? = some (strOr lap.avg_temperature) ∧
      (∀ n : ℤ, strOr (some n) = if n = 0 then "" else toString n) ∧
      strOr none = "" := by
  obtain ⟨t', d', hrow⟩ := csvBody_getElem_lap summary laps k lap 1 0 0 h
  refine ⟨lapRow (1 + k) t' d' lap, ?_, rfl, rfl, rfl, rfl, rfl, rfl, fun n => rfl, rfl⟩
  simp only [generate_csv_rows]
  rw [List.getElem?_cons_succ]
  exact hrow

/-- Witness for C5 (amended): lap with `calories = 0` at index 0. -/
theorem c5_optional_rendering_witness :
    ∃ row, (generate_csv_rows
        [{ distance_meters := some 1000, time_seconds := some 60, calories := some 0 }] {})[1]?
        = some row ∧
      row[6]? = some (strOr (none : Option ℤ)) ∧
      row[7]? = some (strOr (none : Option ℤ)) ∧
      row[8]? = some (strOr (none : Option ℤ)) ∧
      row[9]? = some (strOr (none : Option ℤ)) ∧
      row[20]? = some (strOr (some 0)) ∧
      row[21]? = some (strOr (none : Option ℤ)) ∧
      (∀ n : ℤ, strOr (some n) = if n = 0 then "" else toString n) ∧
      strOr none = "" :=
  c5_optional_rendering_amended
    [{ distance_meters := some 1000, time_seconds := some 60, calories := some 0 }] {} 0
    { distance_meters := some 1000, time_seconds := some 60, calories := some 0 } rfl

/-! ### Claim C7: row counts of the structured-lap round trip -/

/-- C7.  A structured-lap input with N lap records yields N laps, and the
report is the header plus exactly N numbered rows (1-indexed, in input order)
plus exactly one trailing stats row labeled `统计`; non-empty input never
yields 0 numbered rows. -/
theorem c7_row_counts (records : List TCXLap) :
    ((parse_tcx_data records).1).length = records.length ∧
    (generate_csv_rows (parse_tcx_data records).1 (parse_tcx_data records).2).length
        = records.length + 2 ∧
    (generate_csv_rows (parse_tcx_data records).1 (parse_tcx_data records).2)[0]?
        = some headers ∧
    (∀ k, k < records.length → ∃ row,
      (generate_csv_rows (parse_tcx_data records).1 (parse_tcx_data records).2)[k + 1]?
          = some row ∧ row[0]? = some (toString (k + 1))) ∧
    (∃ row,
      (generate_csv_rows (parse_tcx_data records).1 (parse_tcx_data records).2)[records.length + 1]?
          = some row ∧ row[0]? = some "统计") ∧
    (records ≠ [] → 0 < ((parse_tcx_data records).1).length) := by
  have hlen : ((parse_tcx_data records).1).length = records.length := by
    show (records.map parse_tcx_lap).length = _
    exact List.length_map _ _
  refine ⟨hlen, ?_, ?_, ?_, ?_, ?_⟩
  · show (headers :: csvBody _ _ 1 0 0).length = _
    rw [List.length_cons, csvBody_length, hlen]
  · simp only [generate_csv_rows]
    rw [List.getElem?_cons_zero]
  · intro k hk
    have hk' : k < ((parse_tcx_data records).1).length := by
      rw [hlen]
      exact hk
    obtain ⟨lap, hlap⟩ : ∃ lap, ((parse_tcx_data records).1)[k]? = some lap := by
      rw [List.getElem?_eq_getElem hk']
      exact ⟨_, rfl⟩
    obtain ⟨t', d', hrow⟩ :=
      csvBody_getElem_lap (parse_tcx_data records).2 ((parse_tcx_data records).1) k lap 1 0 0 hlap
    refine ⟨lapRow (1 + k) t' d' lap, ?_, ?_⟩
    · simp only [generate_csv_rows]
      rw [List.getElem?_cons_succ]
      exact hrow
    · show some (toString (1 + k)) = some (toString (k + 1))
      rw [Nat.add_comm]
  · refine ⟨statsRow (parse_tcx_data records).2
      (0 + sumT (parse_tcx_data records).1) (0 + sumD (parse_tcx_data records).1), ?_, rfl⟩
    simp only [generate_csv_rows]
    rw [← hlen, List.getElem?_cons_succ, csvBody_getElem_stats]
  · intro hne
    rw [hlen]
    cases records with
    | nil => exact absurd rfl hne
    | cons a t => simp

/-- Witness for C7 on two empty TCX lap records. -/
theorem c7_row_counts_witness :
    ((parse_tcx_data [{}, {}]).1).length = 2 ∧
    (generate_csv_rows (parse_tcx_data [{}, {}]).1 (parse_tcx_data [{}, {}]).2).length = 4 ∧
    (∃ row, (generate_csv_rows (parse_tcx_data [{}, {}]).1 (parse_tcx_data [{}, {}]).2)[1]?
        = some row ∧ row[0]? = some (toString 1)) ∧
    (∃ row, (generate_csv_rows (parse_tcx_data [{}, {}]).1 (parse_tcx_data [{}, {}]).2)[3]?
        = some row ∧ row[0]? = some "统计") ∧
    0 < ((parse_tcx_data [{}, {}]).1).length :=
  ⟨(c7_row_counts [{}, {}]).1,
   (c7_row_counts [{}, {}]).2.1,
   (c7_row_counts [{}, {}]).2.2.2.1 0 (by norm_num),
   (c7_row_counts [{}, {}]).2.2.2.2.1,
   (c7_row_counts [{}, {}]).2.2.2.2.2 (List.cons_ne_nil _ _)⟩

/-! ### Claim C9: pace and moving-time fallbacks -/

/-- C9.  In a lap row, when the lap carries no `grade_adjusted_pace`,
`best_pace` or `moving_pace`, those three columns carry the lap's own computed
pace string (column 4), and an absent `moving_time` renders as `format_time`
of the lap's `time_seconds`; the stats row applies the same fallbacks from the
summary average pace and total time. -/
theorem c9_pace_fallbacks :
    (∀ (laps : List Lap) (summary : Summary) (k : ℕ) (lap : Lap),
      laps[k]? = some lap → lap.grade_adjusted_pace = none → lap.best_pace = none →
      lap.moving_pace = none → lap.moving_time = none →
      (((generate_csv_rows laps summary)[k + 1]?).bind (fun r => r[4]?) = some (lapPace lap) ∧
       ((generate_csv_rows laps summary)[k + 1]?).bind (fun r => r[5]?) = some (lapPace lap) ∧
       ((generate_csv_rows laps summary)[k + 1]?).bind (fun r => r[22]?) = some (lapPace lap) ∧
       ((generate_csv_rows laps summary)[k + 1]?).bind (fun r => r[25]?) = some (lapPace lap) ∧
       ((generate_csv_rows laps summary)[k + 1]?).bind (fun r => r[24]?)
          = some (format_time (some (lap.time_seconds.getD 0))))) ∧
    (∀ (laps : List Lap) (summary : Summary),
      summary.grade_adjusted_pace = none → summary.best_pace = none →
      summary.moving_pace = none → summary.moving_time = none →
      ((generate_csv_rows laps summary)[laps.length + 1]?
          = some (statsRow summary (sumT laps) (sumD laps)) ∧
       (statsRow summary (sumT laps) (sumD laps))[4]?
          = some (stats_avg_pace summary (sumT laps) (sumD laps)) ∧
       (statsRow summary (sumT laps) (sumD laps))[5]?
          = some (stats_avg_pace summary (sumT laps) (sumD laps)) ∧
       (statsRow summary (sumT laps) (sumD laps))[22]?
          = some (stats_avg_pace summary (sumT laps) (sumD laps)) ∧
       (statsRow summary (sumT laps) (sumD laps))[25]?
          = some (stats_avg_pace summary (sumT laps) (sumD laps)) ∧
       (statsRow summary (sumT laps) (sumD laps))[24]?
          = some (format_time (some (summary.total_time.getD (sumT laps)))))) := by
  constructor
  · intro laps summary k lap h hg hb hm hmt
    obtain ⟨t', d', hrow⟩ := csvBody_getElem_lap summary laps k lap 1 0 0 h
    have hrow' : (generate_csv_rows laps summary)[k + 1]? = some (lapRow (1 + k) t' d' lap) := by
      simp only [generate_csv_rows]
      rw [List.getElem?_cons_succ]
      exact hrow
    rw [hrow']
    simp only [Option.some_bind]
    refine ⟨rfl, ?_, ?_, ?_, ?_⟩
    · show some (lap.grade_adjusted_pace.getD (lapPace lap)) = some (lapPace lap)
      rw [hg, Option.getD_none]
    · show some (lap.best_pace.getD (lapPace lap)) = some (lapPace lap)
      rw [hb, Option.getD_none]
    · show some (lap.moving_pace.getD (lapPace lap)) = some (lapPace lap)
      rw [hm, Option.getD_none]
    · show some (format_time (some (lap.moving_time.getD (lap.time_seconds.getD 0))))
          = some (format_time (some (lap.time_seconds.getD 0)))
      rw [hmt, Option.getD_none]
  · intro laps summary hg hb hm hmt
    refine ⟨?_, rfl, ?_, ?_, ?_, ?_⟩
    · simp only [generate_csv_rows]
      rw [List.getElem?_cons_succ, csvBody_getElem_stats, zero_add, zero_add]
    · show some (summary.grade_adjusted_pace.getD (stats_avg_pace summary (sumT laps) (sumD laps)))
          = some (stats_avg_pace summary (sumT laps) (sumD laps))
      rw [hg, Option.getD_none]
    · show some (summary.best_pace.getD (stats_avg_pace summary (sumT laps) (sumD laps)))
          = some (stats_avg_pace summary (sumT laps) (sumD laps))
      rw [hb, Option.getD_none]
    · show some (summary.moving_pace.getD (stats_avg_pace summary (sumT laps) (sumD laps)))
          = some (stats_avg_pace summary (sumT laps) (sumD laps))
      rw [hm, Option.getD_none]
    · show some (format_time (some (summary.moving_time.getD
            (summary.total_time.getD (sumT laps)))))
          = some (format_time (some (summary.total_time.getD (sumT laps))))
      rw [hmt, Option.getD_none]

/-- Witness for C9: one 1000 m / 300 s lap with no pace fields, empty summary. -/
theorem c9_pace_fallbacks_witness :
    (((generate_csv_rows [{ distance_meters := some 1000, time_seconds := some 300 }] {})[1]?).bind
        (fun r => r[4]?)
      = some (lapPace { distance_meters := some 1000, time_seconds := some 300 }) ∧
     ((generate_csv_rows [{ distance_meters := some 1000, time_seconds := some 300 }] {})[1]?).bind
        (fun r => r[5]?)
      = some (lapPace { distance_meters := some 1000, time_seconds := some 300 }) ∧
     ((generate_csv_rows [{ distance_meters := some 1000, time_seconds := some 300 }] {})[1]?).bind
        (fun r => r[22]?)
      = some (lapPace { distance_meters := some 1000, time_seconds := some 300 }) ∧
     ((generate_csv_rows [{ distance_meters := some 1000, time_seconds := some 300 }] {})[1]?).bind
        (fun r => r[25]?)
      = some (lapPace { distance_meters := some 1000, time_seconds := some 300 }) ∧
     ((generate_csv_rows [{ distance_meters := some 1000, time_seconds := some 300 }] {})[1]?).bind
        (fun r => r[24]?)
      = some (format_time (some ((300 : ℚ))))) ∧
    ((generate_csv_rows [{ distance_meters := some 1000, time_seconds := some 300 }] {})[2]?
        = some (statsRow {} (sumT [{ distance_meters := some 1000, time_seconds := some 300 }])
            (sumD [{ distance_meters := some 1000, time_seconds := some 300 }])) ∧
     (statsRow {} (sumT [{ distance_meters := some 1000, time_seconds := some 300 }])
        (sumD [{ distance_meters := some 1000, time_seconds := some 300 }]))[4]?
       = some (stats_avg_pace {} (sumT [{ distance_meters := some 1000, time_seconds := some 300 }])
            (sumD [{ distance_meters := some 1000, time_seconds := some 300 }])) ∧
     (statsRow {} (sumT [{ distance_meters := some 1000, time_seconds := some 300 }])
        (sumD [{ distance_meters := some 1000, time_seconds := some 300 }]))[5]?
       = some (stats_avg_pace {} (sumT [{ distance_meters := some 1000, time_seconds := some 300 }])
            (sumD [{ distance_meters := some 1000, time_seconds := some 300 }])) ∧
     (statsRow {} (sumT [{ distance_meters := some 1000, time_seconds := some 300 }])
        (sumD [{ distance_meters := some 1000, time_seconds := some 300 }]))[22]?
       = some (stats_avg_pace {} (sumT [{ distance_meters := some 1000, time_seconds := some 300 }])
            (sumD [{ distance_meters := some 1000, time_seconds := some 300 }])) ∧
     (statsRow {} (sumT [{ distance_meters := some 1000, time_seconds := some 300 }])
        (sumD [{ distance_meters := some 1000, time_seconds := some 300 }]))[25]?
       = some (stats_avg_pace {} (sumT [{ distance_meters := some 1000, time_seconds := some 300 }])
            (sumD [{ distance_meters := some 1000, time_seconds := some 300 }])) ∧
     (statsRow {} (sumT [{ distance_meters := some 1000, time_seconds := some 300 }])
        (sumD [{ distance_meters := some 1000, time_seconds := some 300 }]))[24]?
       = some (format_time (some ((Summary.total_time {}).getD
            (sumT [{ distance_meters := some 1000, time_seconds := some 300 }]))))) :=
  ⟨c9_pace_fallbacks.1 [{ distance_meters := some 1000, time_seconds := some 300 }] {} 0
      { distance_meters := some 1000, time_seconds := some 300 } rfl rfl rfl rfl rfl,
   c9_pace_fallbacks.2 [{ distance_meters := some 1000, time_seconds := some 300 }] {}
      rfl rfl rfl rfl⟩

end CsvExporter
